import Mathlib

/-!
# Verification of the micropsi2 theano nodenet engine

A shallow embedding of `micropsi_core/nodenet/theano_engine/theano_nodenet.py`
and `micropsi_core/micropsi_logger.py`, together with theorems settling the
frozen claims about the natural-language specification.

Conventions of the embedding:
* machine floats are modelled as `ℚ` (the claims under scrutiny involve no
  rounding behaviour);
* numpy arrays are modelled as total functions `Nat → _` together with the
  explicit capacities `NoN` / `NoE` / `NoNS` carried in the state;
* string uids `"n<id>"` / `"s<id>"` are an opaque bijection with the numeric
  ids (spec §3); the embedding works with the numeric ids directly;
* the helper modules `theano_node.py` / `theano_nodespace.py` /
  `theano_stepoperators.py` are not part of the given sources; the few
  constants and operations taken from them are modelled from the spec and
  marked as such in their doc comments.
-/

namespace Micropsi

/-! ## Logger (`micropsi_core/micropsi_logger.py`) -/

/-- Embeds `MAX_RECORDS_PER_STORAGE` from `micropsi_logger.py`. -/
def MAX_RECORDS_PER_STORAGE : Nat := 1000

/-- A python `logging.LogRecord`, restricted to the fields read by `emit`. -/
structure LogRecord where
  name : String
  created : ℚ
  levelname : String
  message : String
deriving DecidableEq, Repr

/-- The dict built by `RecordWebStorageHandler.emit` for one record. -/
structure StoredRecord where
  logger : String
  time : ℚ
  level : String
  msg : String
deriving DecidableEq, Repr

/-- The `dictrecord` constructed in `emit`: `time` is `record.created * 1000`. -/
def dictrecord (r : LogRecord) : StoredRecord :=
  { logger := r.name, time := r.created * 1000, level := r.levelname, msg := r.message }

/-- The `while len(self.record_storage) >= MAX_RECORDS_PER_STORAGE: del self.record_storage[0]`
loop of `emit`: repeatedly drop the front while the bound is met. -/
def trimStorage (l : List StoredRecord) : List StoredRecord :=
  if h : MAX_RECORDS_PER_STORAGE ≤ l.length then
    trimStorage l.tail
  else
    l
termination_by l.length
decreasing_by
  cases l with
  | nil => simp [MAX_RECORDS_PER_STORAGE] at h
  | cons x xs => simp

/-- Embeds `RecordWebStorageHandler.emit`: trim the storage to below the bound, then
append the freshly formatted record. -/
def emit (storage : List StoredRecord) (record : LogRecord) : List StoredRecord :=
  trimStorage storage ++ [dictrecord record]

/-! ## Step counter (`TheanoNodenet.step`) -/

/-- The arrays-and-arenas part of a `TheanoNodenet` instance, as set up by
`TheanoNodenet.__init__`.  Fields mirror the instance attributes of the source
one for one (uid→name/position dicts and the sensor/actor maps are python
dicts not touched by the claims settled here and are left out). -/
structure TN where
  NoN : Nat
  NoE : Nat
  NoNS : Nat
  allocated_nodes : Nat → Nat
  allocated_node_offsets : Nat → Nat
  allocated_node_parents : Nat → Nat
  allocated_elements_to_nodes : Nat → Nat
  allocated_elements_to_activators : Nat → Nat
  allocated_nodespaces : Nat → Nat
  allocated_nodespaces_por_activators : Nat → Nat
  allocated_nodespaces_ret_activators : Nat → Nat
  allocated_nodespaces_sub_activators : Nat → Nat
  allocated_nodespaces_sur_activators : Nat → Nat
  allocated_nodespaces_cat_activators : Nat → Nat
  allocated_nodespaces_exp_activators : Nat → Nat
  last_allocated_node : Nat
  last_allocated_offset : Nat
  last_allocated_nodespace : Nat
  sparse : Bool
  w : Nat → Nat → ℚ
  a : Nat → ℚ
  g_theta : Nat → ℚ
  g_factor : Nat → ℚ
  g_threshold : Nat → ℚ
  g_amplification : Nat → ℚ
  g_min : Nat → ℚ
  g_max : Nat → ℚ
  g_function_selector : Nat → ℤ
  n_function_selector : Nat → ℤ
  n_node_porlinked : Nat → ℤ
  n_node_retlinked : Nat → ℤ

/-- A running engine: the nodenet arrays together with the private step
counter `self.__step` (exposed as the `current_step` property). -/
structure Engine where
  net : TN
  current_step : Nat

/-- Embeds `TheanoNodenet.step`: under the netlock, run every step operator in
priority order on the arrays, run `netapi._step()`, then `self.__step += 1`.
The operators (`TheanoPropagate`, `TheanoCalculate`, from the separate
`theano_stepoperators.py` module) act on the arrays; the step counter is the
private `__step` attribute which only `step` itself touches, so the operator
pipeline is abstracted as a function on the array state. -/
def step (ops : TN → TN) (e : Engine) : Engine :=
  { net := ops e.net, current_step := e.current_step + 1 }

/-- Embeds `k` successive calls to `step`. -/
def stepIter (ops : TN → TN) : Nat → Engine → Engine
  | 0, e => e
  | Nat.succ k, e => stepIter ops k (step ops e)

/-! ## Node types, gate/slot indices, selector codes

These constants come from `theano_node.py`, which is not among the given
sources; they are modelled from the spec. -/

/-- Modelled from the spec: the closed node-type enumeration
"`Register(1), Sensor, Actor, Concept, Pipe, Activator`" with consecutive
numeric codes; native modules have codes `> MAX_STD_NODETYPE`. -/
def REGISTER : Nat := 1

/-- Modelled from the spec: numeric code of the Sensor node type. -/
def SENSOR : Nat := 2

/-- Modelled from the spec: numeric code of the Actor node type. -/
def ACTOR : Nat := 3

/-- Modelled from the spec: numeric code of the Concept node type. -/
def CONCEPT : Nat := 4

/-- Modelled from the spec: numeric code of the Pipe node type. -/
def PIPE : Nat := 5

/-- Modelled from the spec: numeric code of the Activator node type, the
largest standard code. -/
def ACTIVATOR : Nat := 6

/-- Modelled from the spec: the largest standard node type code; native
modules are `> MAX_STD_NODETYPE` (native modules are not modelled here). -/
def MAX_STD_NODETYPE : Nat := 6

/-- Modelled from the spec: the canonical gate/slot order
`GEN=0, POR=1, RET=2, SUB=3, SUR=4, CAT=5, EXP=6`. -/
inductive GateSlotType : Type
  | gen | por | ret | sub | sur | cat | exp
deriving DecidableEq, Repr

/-- Modelled from the spec: `get_numerical_gate_type` / `get_numerical_slot_type`
for the standard types map the canonical names to indices `0..6`. -/
def GateSlotType.index : GateSlotType → Nat
  | .gen => 0
  | .por => 1
  | .ret => 2
  | .sub => 3
  | .sur => 4
  | .cat => 5
  | .exp => 6

/-- Element index of the GEN element inside a node's run (spec: `GEN=0`). -/
def GEN : Nat := 0
/-- Element index of the POR element inside a node's run (spec: `POR=1`). -/
def POR : Nat := 1
/-- Element index of the RET element inside a node's run (spec: `RET=2`). -/
def RET : Nat := 2
/-- Element index of the SUB element inside a node's run (spec: `SUB=3`). -/
def SUB : Nat := 3
/-- Element index of the SUR element inside a node's run (spec: `SUR=4`). -/
def SUR : Nat := 4
/-- Element index of the CAT element inside a node's run (spec: `CAT=5`). -/
def CAT : Nat := 5
/-- Element index of the EXP element inside a node's run (spec: `EXP=6`). -/
def EXP : Nat := 6

/-- Modelled from the spec: per-gate node-function selector code for "no node
function"; it is the value freshly zeroed selector arrays hold, so `0`. -/
def NFPG_PIPE_NON : ℤ := 0
/-- Modelled from the spec: selector code `NFPG_PIPE_GEN` of the Pipe GEN
node function (consecutive non-zero codes `1..7`). -/
def NFPG_PIPE_GEN : ℤ := 1
/-- Modelled from the spec: selector code `NFPG_PIPE_POR`. -/
def NFPG_PIPE_POR : ℤ := 2
/-- Modelled from the spec: selector code `NFPG_PIPE_RET`. -/
def NFPG_PIPE_RET : ℤ := 3
/-- Modelled from the spec: selector code `NFPG_PIPE_SUB`. -/
def NFPG_PIPE_SUB : ℤ := 4
/-- Modelled from the spec: selector code `NFPG_PIPE_SUR`. -/
def NFPG_PIPE_SUR : ℤ := 5
/-- Modelled from the spec: selector code `NFPG_PIPE_CAT`. -/
def NFPG_PIPE_CAT : ℤ := 6
/-- Modelled from the spec: selector code `NFPG_PIPE_EXP`. -/
def NFPG_PIPE_EXP : ℤ := 7

/-- Modelled from the spec: `get_elements_per_type` — the element count of a
type is `max(len(slottypes), len(gatetypes))`; among the standard types of the
theano engine only Pipe has seven slots/gates, all others have at most one
(native modules are not modelled). -/
def get_elements_per_type (t : Nat) : Nat :=
  if t = PIPE then 7 else 1

/-! ## Link protocol (`set_link_weight`, `get_link_weight`) -/

/-- Net effect of `for g in range(n): arr[off + g] = v` on an array. -/
def setRange {α : Type} (f : Nat → α) (off n : Nat) (v : α) : Nat → α :=
  fun e => if off ≤ e ∧ e < off + n then v else f e

/-- The single-entry write `w_matrix[x, y] = weight` (sparse path) resp.
`w_matrix[x][y] = weight` (dense path, a write through the row view): both
assign the one entry at row `x`, column `y`. -/
def updW (w : Nat → Nat → ℚ) (x y : Nat) (v : ℚ) : Nat → Nat → ℚ :=
  fun p q => if p = x ∧ q = y then v else w p q

/-- Embeds `TheanoNodenet.set_link_weight(source, gate, target, slot, weight)`:
writes `weight` at row `x = offset(target) + numerical slot type`, column
`y = offset(source) + numerical gate type` of `w` (sparse or dense branch),
then maintains `n_node_porlinked` / `n_node_retlinked`: if the written slot is
POR (resp. RET) of a Pipe target, all seven elements of the target get flag
`0` when `weight == 0` and flag `1` otherwise.  The `certainty` argument is
accepted and ignored by the source, and native-module gate/slot name lookup is
not modelled. -/
def set_link_weight (tn : TN) (source_node : Nat) (gate_type : GateSlotType)
    (target_node : Nat) (slot_type : GateSlotType) (weight : ℚ) : TN :=
  let ngt := gate_type.index
  let nst := slot_type.index
  let x := tn.allocated_node_offsets target_node + nst
  let y := tn.allocated_node_offsets source_node + ngt
  let w' := if tn.sparse then updW tn.w x y weight else updW tn.w x y weight
  let flagv : ℤ := if weight = 0 then 0 else 1
  let tn1 := { tn with w := w' }
  let tn2 :=
    if slot_type = GateSlotType.por ∧ tn1.allocated_nodes target_node = PIPE then
      { tn1 with n_node_porlinked := setRange tn1.n_node_porlinked (tn1.allocated_node_offsets target_node) 7 flagv }
    else tn1
  let tn3 :=
    if slot_type = GateSlotType.ret ∧ tn2.allocated_nodes target_node = PIPE then
      { tn2 with n_node_retlinked := setRange tn2.n_node_retlinked (tn2.allocated_node_offsets target_node) 7 flagv }
    else tn2
  tn3

/-- Modelled from the spec: `get_link_weight` (the read endpoint of the link
protocol lives outside the given sources; spec: "The numeric edge in `W`
lives at `(offset(target)+slot_index, offset(source)+gate_index)`", and
`get_link_weight(s,g,t,sl)` returns that stored entry). -/
def get_link_weight (tn : TN) (source_node : Nat) (gate_type : GateSlotType)
    (target_node : Nat) (slot_type : GateSlotType) : ℚ :=
  tn.w (tn.allocated_node_offsets target_node + slot_type.index)
    (tn.allocated_node_offsets source_node + gate_type.index)

/-- Embeds `TheanoNodenet.delete_link` is `set_link_weight` with weight `0`. -/
def delete_link (tn : TN) (source_node : Nat) (gate_type : GateSlotType)
    (target_node : Nat) (slot_type : GateSlotType) : TN :=
  set_link_weight tn source_node gate_type target_node slot_type 0

/-! ## Id arena -/

/-- The id-scan pattern shared by `create_node` and `create_nodespace`:
`id = 0`, then `for i in range(cursor + 1, cap): if arr[i] == 0: id = i; break`;
if still `id < 1`, then `for i in range(cursor - 1): if arr[i] == 0: id = i; break`
(a scan of `[0, cursor - 1)` — it starts at index 0); if still `id < 1` the
source raises `MemoryError` (`none` here). -/
def findFreeIdFromCursor (arr : Nat → Nat) (cursor cap : Nat) : Option Nat :=
  let id :=
    match (List.range' (cursor + 1) (cap - (cursor + 1))).find? (fun i => arr i == 0) with
    | some i => i
    | none => 0
  let id :=
    if id < 1 then
      match (List.range' 0 (cursor - 1)).find? (fun i => arr i == 0) with
      | some i => i
      | none => 0
    else id
  if id < 1 then none else some id

/-- Embeds `TheanoNodenet.create_nodespace(parent_uid, position, name, uid)`: pick the
id (scan when `uid is None`, else the uid's numeric id), set the cursor, store
the parent id (`0` for `None`) in `allocated_nodespaces[id]`.  The uid→name and
uid→position dicts are not modelled. -/
def create_nodespace (tn : TN) (parent_uid : Option Nat) (uid : Option Nat) :
    Option (Nat × TN) := do
  let id ← match uid with
    | none => findFreeIdFromCursor tn.allocated_nodespaces tn.last_allocated_nodespace tn.NoNS
    | some u => pure u
  let parent_id := match parent_uid with
    | none => 0
    | some p => p
  pure (id, { tn with
    last_allocated_nodespace := id,
    allocated_nodespaces := Function.update tn.allocated_nodespaces id parent_id })

/-- The arrays as allocated by `TheanoNodenet.__init__` before the Root
nodespace is created: all arenas zero, `g_factor`, `g_amplification` and
`g_max` are ones (np.ones), everything else zeros (np.zeros), cursors `0`,
`w` the empty matrix. -/
def initTN (NoN NoE NoNS : Nat) (sparse : Bool) : TN where
  NoN := NoN
  NoE := NoE
  NoNS := NoNS
  allocated_nodes := fun _ => 0
  allocated_node_offsets := fun _ => 0
  allocated_node_parents := fun _ => 0
  allocated_elements_to_nodes := fun _ => 0
  allocated_elements_to_activators := fun _ => 0
  allocated_nodespaces := fun _ => 0
  allocated_nodespaces_por_activators := fun _ => 0
  allocated_nodespaces_ret_activators := fun _ => 0
  allocated_nodespaces_sub_activators := fun _ => 0
  allocated_nodespaces_sur_activators := fun _ => 0
  allocated_nodespaces_cat_activators := fun _ => 0
  allocated_nodespaces_exp_activators := fun _ => 0
  last_allocated_node := 0
  last_allocated_offset := 0
  last_allocated_nodespace := 0
  sparse := sparse
  w := fun _ _ => 0
  a := fun _ => 0
  g_theta := fun _ => 0
  g_factor := fun _ => 1
  g_threshold := fun _ => 0
  g_amplification := fun _ => 1
  g_min := fun _ => 0
  g_max := fun _ => 1
  g_function_selector := fun _ => 0
  n_function_selector := fun _ => 0
  n_node_porlinked := fun _ => 0
  n_node_retlinked := fun _ => 0

/-- The end of `__init__`: `create_nodespace(None, None, "Root", "s1")` — the
Root nodespace gets id `1` with parent entry `0`. -/
def freshTN (NoN NoE NoNS : Nat) (sparse : Bool) : TN :=
  ((create_nodespace (initTN NoN NoE NoNS sparse) none (some 1)).map Prod.snd).getD
    (initTN NoN NoE NoNS sparse)

/-! ## create_node / delete_node -/

/-- The string node types accepted by the theano engine's `create_node`
(`STANDARD_NODETYPES` of `theano_nodenet.py`; native modules and the gateless
"Nodespace" pseudo-type are not modelled). -/
inductive NType : Type
  | Register | Sensor | Actor | Pipe | Activator
deriving DecidableEq, Repr

/-- Modelled from the spec: `get_numerical_node_type` for standard types — the
numeric codes of the closed enumeration. -/
def NType.code : NType → Nat
  | .Register => REGISTER
  | .Sensor => SENSOR
  | .Actor => ACTOR
  | .Pipe => PIPE
  | .Activator => ACTIVATOR

/-- The inner `for j in range(0, number_of_elements)` loop of `create_node`'s
element scan: counts consecutive entries from index `i` that are inside the
vector (`i + j < NoE`) and free (`allocated_elements_to_nodes[i+j] == 0`),
stopping at the first failure or after `n` entries. -/
def freeRun (elems : Nat → Nat) (NoE : Nat) : Nat → Nat → Nat
  | _, 0 => 0
  | i, Nat.succ m => if i < NoE ∧ elems i = 0 then freeRun elems NoE (i + 1) m + 1 else 0

/-- The `while offset < 1` element-range scan of `create_node`: from cursor
position `i`, count the free run; if it covers `n` elements, that is the
offset (`break` — this can legitimately return offset `0` after a restart);
otherwise jump past the run, and on falling off the end restart once from `0`;
a second fall off the end is the source's `MemoryError` (`none`).  `fuel`
bounds the iteration count; callers pass `2 * NoE + 2`, which the scan (whose
cursor advances by at least one per iteration and restarts at most once)
never exhausts. -/
def findElementRange (elems : Nat → Nat) (NoE n : Nat) :
    Nat → Nat → Bool → Option Nat
  | 0, _, _ => none
  | Nat.succ fuel, i, restarted =>
    let freecount := freeRun elems NoE i n
    if n ≤ freecount then some i
    else
      let i' := i + freecount + 1
      if NoE ≤ i' then
        if restarted then none
        else findElementRange elems NoE n fuel 0 true
      else findElementRange elems NoE n fuel i' restarted

/-- Embeds `TheanoNodenet.set_nodespace_gatetype_activator(nodespace, gate_type,
activator_uid)`: store the activator's id in the per-direction nodespace
array selected by the `if/elif` chain over the six direction names (a `gen`
gate type matches no branch), then, for every Pipe node whose parent is the
nodespace, write the activator's element offset into
`allocated_elements_to_activators` at the node's element for that
direction. -/
def set_nodespace_gatetype_activator (tn : TN) (nodespace_uid : Nat)
    (gate_type : GateSlotType) (activator_id : Nat) : TN :=
  let tn1 :=
    match gate_type with
    | .por =>
      let arr := Function.update tn.allocated_nodespaces_por_activators nodespace_uid activator_id
      { tn with allocated_nodespaces_por_activators := arr }
    | .ret =>
      let arr := Function.update tn.allocated_nodespaces_ret_activators nodespace_uid activator_id
      { tn with allocated_nodespaces_ret_activators := arr }
    | .sub =>
      let arr := Function.update tn.allocated_nodespaces_sub_activators nodespace_uid activator_id
      { tn with allocated_nodespaces_sub_activators := arr }
    | .sur =>
      let arr := Function.update tn.allocated_nodespaces_sur_activators nodespace_uid activator_id
      { tn with allocated_nodespaces_sur_activators := arr }
    | .cat =>
      let arr := Function.update tn.allocated_nodespaces_cat_activators nodespace_uid activator_id
      { tn with allocated_nodespaces_cat_activators := arr }
    | .exp =>
      let arr := Function.update tn.allocated_nodespaces_exp_activators nodespace_uid activator_id
      { tn with allocated_nodespaces_exp_activators := arr }
    | .gen => tn
  let nodes_in_nodespace :=
    (List.range tn1.NoN).filter (fun nid => tn1.allocated_node_parents nid == nodespace_uid)
  let write := fun (arr : Nat → Nat) (nid : Nat) =>
    if tn1.allocated_nodes nid = PIPE then
      Function.update arr (tn1.allocated_node_offsets nid + gate_type.index)
        (tn1.allocated_node_offsets activator_id)
    else arr
  let eta := nodes_in_nodespace.foldl write tn1.allocated_elements_to_activators
  { tn1 with allocated_elements_to_activators := eta }

/-- The Pipe branch of `create_node`: initialise the seven per-gate node
function selectors of the new node's run, and inherit the nodespace's current
directional activator bindings (the activator's element offset, i.e.
`allocated_node_offsets` of the id stored in the per-direction array) for the
six non-GEN elements. -/
def create_node_pipe_init (tn : TN) (offset nodespace_uid : Nat) : TN :=
  let nfs := tn.n_function_selector
  let nfs := Function.update nfs (offset + GEN) NFPG_PIPE_GEN
  let nfs := Function.update nfs (offset + POR) NFPG_PIPE_POR
  let nfs := Function.update nfs (offset + RET) NFPG_PIPE_RET
  let nfs := Function.update nfs (offset + SUB) NFPG_PIPE_SUB
  let nfs := Function.update nfs (offset + SUR) NFPG_PIPE_SUR
  let nfs := Function.update nfs (offset + CAT) NFPG_PIPE_CAT
  let nfs := Function.update nfs (offset + EXP) NFPG_PIPE_EXP
  let eta := tn.allocated_elements_to_activators
  let eta := Function.update eta (offset + POR)
    (tn.allocated_node_offsets (tn.allocated_nodespaces_por_activators nodespace_uid))
  let eta := Function.update eta (offset + RET)
    (tn.allocated_node_offsets (tn.allocated_nodespaces_ret_activators nodespace_uid))
  let eta := Function.update eta (offset + SUB)
    (tn.allocated_node_offsets (tn.allocated_nodespaces_sub_activators nodespace_uid))
  let eta := Function.update eta (offset + SUR)
    (tn.allocated_node_offsets (tn.allocated_nodespaces_sur_activators nodespace_uid))
  let eta := Function.update eta (offset + CAT)
    (tn.allocated_node_offsets (tn.allocated_nodespaces_cat_activators nodespace_uid))
  let eta := Function.update eta (offset + EXP)
    (tn.allocated_node_offsets (tn.allocated_nodespaces_exp_activators nodespace_uid))
  { tn with n_function_selector := nfs, allocated_elements_to_activators := eta }

/-- Embeds `TheanoNodenet.create_node(nodetype, nodespace_uid, position, name, uid,
parameters, gate_parameters, gate_functions)`, arena part.  Id choice: scan
when `uid is None` (`findFreeIdFromCursor`); with an explicit uid the id is
simply `from_id(uid)` — the source performs no liveness check.  Then the
element-range scan, the cursor updates, the arena writes, the Pipe selector /
activator initialisation, and for an Activator with a `type` parameter the
nodespace binding.  `none` is the source's `MemoryError`.  Not modelled (none
of the settled claims depends on them): the uid→position/name dicts, the
sensor/actor map registration for Sensor/Actor parameters, and the
gate-default application through the `TheanoNode` proxy of `theano_node.py`
(outside the given sources), which touches only the `g_*` parameter
vectors. -/
def create_node (tn : TN) (nodetype : NType) (nodespace_uid : Nat)
    (uid : Option Nat) (activator_type : Option GateSlotType) :
    Option (Nat × TN) := do
  let id ← match uid with
    | none => findFreeIdFromCursor tn.allocated_nodes tn.last_allocated_node tn.NoN
    | some u => pure u
  let number_of_elements := get_elements_per_type nodetype.code
  let offset ← findElementRange tn.allocated_elements_to_nodes tn.NoE
    number_of_elements (2 * tn.NoE + 2) (tn.last_allocated_offset + 1) false
  let elems := setRange tn.allocated_elements_to_nodes offset number_of_elements id
  let tn1 := { tn with
    last_allocated_node := id
    last_allocated_offset := offset
    allocated_nodes := Function.update tn.allocated_nodes id nodetype.code
    allocated_node_parents := Function.update tn.allocated_node_parents id nodespace_uid
    allocated_node_offsets := Function.update tn.allocated_node_offsets id offset
    allocated_elements_to_nodes := elems }
  let tn2 :=
    if nodetype = NType.Pipe then
      create_node_pipe_init tn1 offset nodespace_uid
    else if nodetype = NType.Activator then
      match activator_type with
      | some gt => set_nodespace_gatetype_activator tn1 nodespace_uid gt id
      | none => tn1
    else tn1
  pure (id, tn2)

/-- Modelled from the spec: `TheanoNode.unlink_completely` (in
`theano_node.py`, outside the given sources) — "unlinks completely (zero all
incident weights)", i.e. every entry of `w` whose row or column falls in the
node's element run becomes `0`. -/
def unlink_completely (tn : TN) (id : Nat) : TN :=
  let offset := tn.allocated_node_offsets id
  let count := get_elements_per_type (tn.allocated_nodes id)
  let w' := fun x y =>
    if (offset ≤ x ∧ x < offset + count) ∨ (offset ≤ y ∧ y < offset + count)
    then 0 else tn.w x y
  { tn with w := w' }

/-- The trailing `if/elif` chain of `delete_node`: clear the parent
nodespace's directional activator binding if it referenced the deleted node
(only the first matching direction is cleared). -/
def delete_node_clear_ns_activator (tn : TN) (parent id : Nat) : TN :=
  if tn.allocated_nodespaces_por_activators parent = id then
    let arr := Function.update tn.allocated_nodespaces_por_activators parent 0
    { tn with allocated_nodespaces_por_activators := arr }
  else if tn.allocated_nodespaces_ret_activators parent = id then
    let arr := Function.update tn.allocated_nodespaces_ret_activators parent 0
    { tn with allocated_nodespaces_ret_activators := arr }
  else if tn.allocated_nodespaces_sub_activators parent = id then
    let arr := Function.update tn.allocated_nodespaces_sub_activators parent 0
    { tn with allocated_nodespaces_sub_activators := arr }
  else if tn.allocated_nodespaces_sur_activators parent = id then
    let arr := Function.update tn.allocated_nodespaces_sur_activators parent 0
    { tn with allocated_nodespaces_sur_activators := arr }
  else if tn.allocated_nodespaces_cat_activators parent = id then
    let arr := Function.update tn.allocated_nodespaces_cat_activators parent 0
    { tn with allocated_nodespaces_cat_activators := arr }
  else if tn.allocated_nodespaces_exp_activators parent = id then
    let arr := Function.update tn.allocated_nodespaces_exp_activators parent 0
    { tn with allocated_nodespaces_exp_activators := arr }
  else tn

/-- Embeds `TheanoNodenet.delete_node(uid)`: remember type/offset/parent, unlink all
incident weights, zero the node's entries in the three per-node arenas, zero
`allocated_elements_to_nodes` and `g_function_selector` over the node's
`get_elements_per_type(type)` elements, write `NFPG_PIPE_NON` into
`n_function_selector` at `offset+GEN .. offset+EXP` — all SEVEN positions,
irrespective of the node's element count, exactly as the source does —, set
the id cursor to `id - 1`, zero every `allocated_elements_to_activators`
entry equal to `offset`, and clear the parent nodespace's activator binding
if it referenced this node.  The uid→name/position dicts, native-module
instance cache and sensor/actor map removal (python dicts) are not
modelled. -/
def delete_node (tn : TN) (id : Nat) : TN :=
  let type := tn.allocated_nodes id
  let offset := tn.allocated_node_offsets id
  let parent := tn.allocated_node_parents id
  let tnu := unlink_completely tn id
  let elems := setRange tnu.allocated_elements_to_nodes offset (get_elements_per_type type) 0
  let gfs := setRange tnu.g_function_selector offset (get_elements_per_type type) 0
  let tna := { tnu with
    allocated_nodes := Function.update tnu.allocated_nodes id 0
    allocated_node_offsets := Function.update tnu.allocated_node_offsets id 0
    allocated_node_parents := Function.update tnu.allocated_node_parents id 0
    allocated_elements_to_nodes := elems
    g_function_selector := gfs }
  let nfs := tna.n_function_selector
  let nfs := Function.update nfs (offset + GEN) NFPG_PIPE_NON
  let nfs := Function.update nfs (offset + POR) NFPG_PIPE_NON
  let nfs := Function.update nfs (offset + RET) NFPG_PIPE_NON
  let nfs := Function.update nfs (offset + SUB) NFPG_PIPE_NON
  let nfs := Function.update nfs (offset + SUR) NFPG_PIPE_NON
  let nfs := Function.update nfs (offset + CAT) NFPG_PIPE_NON
  let nfs := Function.update nfs (offset + EXP) NFPG_PIPE_NON
  let eta := fun e =>
    if tna.allocated_elements_to_activators e = offset then 0
    else tna.allocated_elements_to_activators e
  let tnb := { tna with
    n_function_selector := nfs
    last_allocated_node := id - 1
    allocated_elements_to_activators := eta }
  delete_node_clear_ns_activator tnb parent id

/-- Embeds `children_ids = np.where(self.allocated_nodespaces == nodespace_id)[0]`
of `delete_nodespace`: the nodespace indices whose parent entry is the
deleted id. -/
def dns_children (tn : TN) (nodespace_id : Nat) : List Nat :=
  (List.range tn.NoNS).filter (fun c => tn.allocated_nodespaces c == nodespace_id)

/-- Embeds `node_ids = np.where(self.allocated_node_parents == nodespace_id)[0]` of
`delete_nodespace`: the node ids whose parent is the deleted nodespace. -/
def dns_nodes (tn : TN) (nodespace_id : Nat) : List Nat :=
  (List.range tn.NoN).filter (fun nid => tn.allocated_node_parents nid == nodespace_id)

/-- The tail of `delete_nodespace`: clear the nodespace's arena entry and set
the id cursor. -/
def dns_clear (tn : TN) (nodespace_id : Nat) : TN :=
  let arr := Function.update tn.allocated_nodespaces nodespace_id 0
  { tn with allocated_nodespaces := arr, last_allocated_nodespace := nodespace_id }

/-- Embeds `TheanoNodenet.delete_nodespace(uid)`: first recursively delete every
child nodespace (`np.where(allocated_nodespaces == nodespace_id)` computed on
entry), then delete every node whose parent is the nodespace (computed after
the child deletions), then clear the nodespace's arena entry and set the
cursor.  The source recursion carries no fuel; `fuel` bounds the recursion
depth (the source recursion terminates on every acyclic parent array, and
every theorem below instantiates or quantifies the fuel explicitly).  There
is no check of any kind against deleting the Root nodespace. -/
def delete_nodespace : Nat → TN → Nat → TN
  | 0, tn, _ => tn
  | Nat.succ fuel, tn, nodespace_id =>
    let tn1 := (dns_children tn nodespace_id).foldl (fun s c => delete_nodespace fuel s c) tn
    let tn2 := (dns_nodes tn1 nodespace_id).foldl (fun s nid => delete_node s nid) tn1
    dns_clear tn2 nodespace_id

/-- Embeds `TheanoNodenet.get_nodespace_uids`: the indices with a non-zero parent
entry, plus — appended unconditionally — the Root id `1` (whose own entry is
`0` since its parent is `None`). -/
def get_nodespace_uids (tn : TN) : List Nat :=
  ((List.range tn.NoNS).filter (fun i => tn.allocated_nodespaces i != 0)) ++ [1]

/-! ## Persistence (`TheanoNodenet.load`) -/

/-- The observable state of one on-disk file for `load`:
`absent` (`os.path.isfile` is false), `ioerror` (the file exists but opening
raised `IOError`), `valueerror` (opened but parsing raised `ValueError`), or
successfully parsed content. -/
inductive FileOnDisk (α : Type) : Type
  | absent
  | ioerror
  | valueerror
  | ok (content : α)

/-- The members of the `<uid>-data.npz` archive read by `load`; each is
`none` when missing from the archive.  The CSR triple
`w_data`/`w_indices`/`w_indptr` is modelled as the matrix it reassembles
(`load` tests all three keys at once), and `sizeinformation` as the triple
`[NoN, NoE, NoNS]` (the source reads entries 0 and 1 only). -/
structure DataFile where
  sizeinformation : Option (Nat × Nat × Nat)
  allocated_nodes : Option (Nat → Nat)
  allocated_node_offsets : Option (Nat → Nat)
  allocated_elements_to_nodes : Option (Nat → Nat)
  allocated_nodespaces : Option (Nat → Nat)
  allocated_node_parents : Option (Nat → Nat)
  allocated_elements_to_activators : Option (Nat → Nat)
  allocated_nodespaces_por_activators : Option (Nat → Nat)
  allocated_nodespaces_ret_activators : Option (Nat → Nat)
  allocated_nodespaces_sub_activators : Option (Nat → Nat)
  allocated_nodespaces_sur_activators : Option (Nat → Nat)
  allocated_nodespaces_cat_activators : Option (Nat → Nat)
  allocated_nodespaces_exp_activators : Option (Nat → Nat)
  w_csr : Option (Nat → Nat → ℚ)
  a : Option (Nat → ℚ)
  g_theta : Option (Nat → ℚ)
  g_factor : Option (Nat → ℚ)
  g_threshold : Option (Nat → ℚ)
  g_amplification : Option (Nat → ℚ)
  g_min : Option (Nat → ℚ)
  g_max : Option (Nat → ℚ)
  g_function_selector : Option (Nat → ℤ)
  n_function_selector : Option (Nat → ℤ)
  n_node_porlinked : Option (Nat → ℤ)
  n_node_retlinked : Option (Nat → ℤ)

/-- The per-member `if '<name>' in datafile: self.<name> = datafile['<name>']
else: warn, keep default` cascade of `load` for every member other than the
`w`/`a` pair: each present member overwrites the corresponding field, each
missing member logs a warning and leaves the field at its default. -/
def apply_scalar_members (df : DataFile) (tn : TN) : TN :=
  { tn with
    NoN := (df.sizeinformation.map (fun s => s.1)).getD tn.NoN
    NoE := (df.sizeinformation.map (fun s => s.2.1)).getD tn.NoE
    allocated_nodes := df.allocated_nodes.getD tn.allocated_nodes
    allocated_node_offsets := df.allocated_node_offsets.getD tn.allocated_node_offsets
    allocated_elements_to_nodes := df.allocated_elements_to_nodes.getD tn.allocated_elements_to_nodes
    allocated_nodespaces := df.allocated_nodespaces.getD tn.allocated_nodespaces
    allocated_node_parents := df.allocated_node_parents.getD tn.allocated_node_parents
    allocated_elements_to_activators := df.allocated_elements_to_activators.getD tn.allocated_elements_to_activators
    allocated_nodespaces_por_activators := df.allocated_nodespaces_por_activators.getD tn.allocated_nodespaces_por_activators
    allocated_nodespaces_ret_activators := df.allocated_nodespaces_ret_activators.getD tn.allocated_nodespaces_ret_activators
    allocated_nodespaces_sub_activators := df.allocated_nodespaces_sub_activators.getD tn.allocated_nodespaces_sub_activators
    allocated_nodespaces_sur_activators := df.allocated_nodespaces_sur_activators.getD tn.allocated_nodespaces_sur_activators
    allocated_nodespaces_cat_activators := df.allocated_nodespaces_cat_activators.getD tn.allocated_nodespaces_cat_activators
    allocated_nodespaces_exp_activators := df.allocated_nodespaces_exp_activators.getD tn.allocated_nodespaces_exp_activators
    g_theta := df.g_theta.getD tn.g_theta
    g_factor := df.g_factor.getD tn.g_factor
    g_threshold := df.g_threshold.getD tn.g_threshold
    g_amplification := df.g_amplification.getD tn.g_amplification
    g_min := df.g_min.getD tn.g_min
    g_max := df.g_max.getD tn.g_max
    g_function_selector := df.g_function_selector.getD tn.g_function_selector
    n_function_selector := df.n_function_selector.getD tn.n_function_selector
    n_node_porlinked := df.n_node_porlinked.getD tn.n_node_porlinked
    n_node_retlinked := df.n_node_retlinked.getD tn.n_node_retlinked }

/-- The bulk-data phase of `load`: every member falls back per-field as in
`apply_scalar_members`; the CSR triple, when complete, installs both `w` and
`a` — the source indexes `datafile['a']` unconditionally inside that branch,
so an archive carrying the `w` triple but no `a` member raises an uncaught
`KeyError` (`Except.error`); when the triple is incomplete it warns and keeps
the default `w` (and never reads `a`). -/
def apply_datafile (df : DataFile) (tn : TN) : Except Unit TN :=
  match df.w_csr, df.a with
  | some _, none => Except.error ()
  | some wv, some av => Except.ok { apply_scalar_members df tn with w := wv, a := av }
  | none, _ => Except.ok (apply_scalar_members df tn)

/-- Embeds `TheanoNodenet.initialize_nodenet(initfrom)`: a no-op for an empty dict,
otherwise `merge_data` (and the positions/names/actuatormap/sensormap dict
updates).  The metadata dict is abstracted as a type `μ` with an emptiness
test and a merge function: the claims settled here depend only on the empty
case. -/
def initialize_nodenet {μ : Type} (isEmptyMeta : μ → Bool) (merge : μ → TN → TN)
    (initfrom : Option μ) (tn : TN) : TN :=
  match initfrom with
  | none => tn
  | some m => if isEmptyMeta m then tn else merge m tn

/-- Embeds `TheanoNodenet.load(filename)`: if the metadata file exists, read it —
`ValueError`/`IOError` warn and `return False`; if it does NOT exist, the
whole block is skipped and `initfrom` stays the empty dict.  The same
pattern for the bulk-data archive.  Then `initialize_nodenet(initfrom)`,
then — only if an archive was found — the per-member loading, and finally
`return True`.  A missing metadata file is therefore NOT an error path. -/
def load {μ : Type} (isEmptyMeta : μ → Bool) (merge : μ → TN → TN)
    (metafile : FileOnDisk μ) (datafile : FileOnDisk DataFile) (tn : TN) :
    Except Unit (Bool × TN) :=
  match metafile with
  | .ioerror => Except.ok (false, tn)
  | .valueerror => Except.ok (false, tn)
  | mf =>
    match datafile with
    | .ioerror => Except.ok (false, tn)
    | .valueerror => Except.ok (false, tn)
    | .absent =>
      let initfrom := match mf with | FileOnDisk.ok m => some m | _ => none
      Except.ok (true, initialize_nodenet isEmptyMeta merge initfrom tn)
    | .ok df =>
      let initfrom := match mf with | FileOnDisk.ok m => some m | _ => none
      (apply_datafile df (initialize_nodenet isEmptyMeta merge initfrom tn)).map
        (fun t => (true, t))

/-- The archive with every member missing. -/
def emptyDataFile : DataFile :=
  ⟨none, none, none, none, none, none, none, none, none, none, none, none, none,
   none, none, none, none, none, none, none, none, none, none, none, none⟩

/-! ## The shifted activation view -/

/-- A strided matrix view on the activation buffer: a column count and the
entries; reads past the end of the backing buffer have no defined value. -/
structure ShiftedView where
  cols : Nat
  entry : Nat → Nat → Option ℚ

/-- The `a_shifted` built in `__init__`:
`np.lib.stride_tricks.as_strided(a_array, shape=(NoE, 7), strides=(byte_per_float, byte_per_float))`
— row `i`, column `j < 7` reads the buffer at `i + j` (stride is one element in
both dimensions); indices `i + j ≥ NoE` fall past the buffer. -/
def a_shifted_init (a : Nat → ℚ) (NoE : Nat) : ShiftedView where
  cols := 7
  entry := fun i j => if j < 7 ∧ i + j < NoE then some (a (i + j)) else none

/-- Embeds `TheanoNodenet.rebuild_shifted`: `a_rolled = np.roll(a_array, 7)` (so
`a_rolled[k] = a[(k - 7) mod NoE]`, written `(k + NoE - 7) % NoE` for
`7 ≤ NoE`), then
`as_strided(a_rolled_array, shape=(NoE, 14), strides=(byte_per_float, byte_per_float))`
— fourteen columns; row `i`, column `j < 14` reads the rolled buffer at
`i + j`; indices past the rolled buffer have no defined value. -/
def rebuild_shifted (a : Nat → ℚ) (NoE : Nat) : ShiftedView where
  cols := 14
  entry := fun i j => if j < 14 ∧ i + j < NoE then some (a ((i + j + NoE - 7) % NoE)) else none

/-! ## Concrete example states used by counterexamples and witnesses -/

/-- A small nodenet (capacities 4/12/3): Register node 1 at offset 1, Pipe
node 2 owning elements 2..8, Register node 3 at offset 9, all in the Root
nodespace.  Two links with weight 1 end on the Pipe's POR slot (element 3):
one from node 1's GEN gate (column 1), one from node 3's GEN gate (column 9);
the por-linked flags of the Pipe's seven elements are set accordingly. -/
def tnPipeNet : TN :=
  { initTN 4 12 3 true with
    allocated_nodes := fun i =>
      if i = 1 then REGISTER else if i = 2 then PIPE else if i = 3 then REGISTER else 0
    allocated_node_offsets := fun i =>
      if i = 1 then 1 else if i = 2 then 2 else if i = 3 then 9 else 0
    allocated_node_parents := fun i => if 1 ≤ i ∧ i ≤ 3 then 1 else 0
    allocated_elements_to_nodes := fun e =>
      if e = 1 then 1 else if 2 ≤ e ∧ e < 9 then 2 else if e = 9 then 3 else 0
    w := fun p q => if (p = 3 ∧ q = 1) ∨ (p = 3 ∧ q = 9) then 1 else 0
    n_node_porlinked := fun e => if 2 ≤ e ∧ e < 9 then 1 else 0
    n_function_selector := fun e =>
      if e = 2 then NFPG_PIPE_GEN else if e = 3 then NFPG_PIPE_POR else
      if e = 4 then NFPG_PIPE_RET else if e = 5 then NFPG_PIPE_SUB else
      if e = 6 then NFPG_PIPE_SUR else if e = 7 then NFPG_PIPE_CAT else
      if e = 8 then NFPG_PIPE_EXP else 0
    last_allocated_node := 3
    last_allocated_offset := 9
    last_allocated_nodespace := 1 }

/-- A full-above-the-cursor arena (capacity `NoN = 3`): node 2 (the highest
id) is a live Register, node 1 is free, and the id cursor
`last_allocated_node` is `2` — so the upward scan range `(2, 3)` is empty and
only the wrap-around scan could find the free id `1`. -/
def tnC2 : TN :=
  { initTN 3 12 3 true with
    allocated_nodes := fun i => if i = 2 then REGISTER else 0
    allocated_node_offsets := fun i => if i = 2 then 1 else 0
    allocated_node_parents := fun i => if i = 2 then 1 else 0
    allocated_elements_to_nodes := fun e => if e = 1 then 2 else 0
    last_allocated_node := 2
    last_allocated_offset := 1
    last_allocated_nodespace := 1 }

/-- A nodenet with one live Register node, id 1 at offset 1 (capacities
4/10/3), used to probe `create_node` with the already-live uid `"n1"`. -/
def tnC5 : TN :=
  { initTN 4 10 3 true with
    allocated_nodes := fun i => if i = 1 then REGISTER else 0
    allocated_node_offsets := fun i => if i = 1 then 1 else 0
    allocated_node_parents := fun i => if i = 1 then 1 else 0
    allocated_elements_to_nodes := fun e => if e = 1 then 1 else 0
    last_allocated_node := 1
    last_allocated_offset := 1
    last_allocated_nodespace := 1 }

/-- A nodenet whose Root nodespace (id 1, parent entry 0) has one child
nodespace (id 2) and directly contains one live Register node (id 1 at
offset 1). -/
def tnC6 : TN :=
  { initTN 3 12 3 true with
    allocated_nodes := fun i => if i = 1 then REGISTER else 0
    allocated_node_offsets := fun i => if i = 1 then 1 else 0
    allocated_node_parents := fun i => if i = 1 then 1 else 0
    allocated_elements_to_nodes := fun e => if e = 1 then 1 else 0
    allocated_nodespaces := fun s => if s = 2 then 1 else 0
    last_allocated_node := 1
    last_allocated_offset := 1
    last_allocated_nodespace := 2 }

/-- A concrete activation buffer (`a[k] = k`) for probing the shifted
views. -/
def aC8 : Nat → ℚ := fun k => (k : ℚ)

end Micropsi

namespace Micropsi

/-! ## Theorems for claim C10 (logger ring buffer) -/

theorem trimStorage_eq_drop (l : List StoredRecord) :
    trimStorage l = l.drop (l.length - (MAX_RECORDS_PER_STORAGE - 1)) := by
  generalize hn : l.length = n
  induction n using Nat.strong_induction_on generalizing l with
  | _ n ih =>
    subst hn
    rw [trimStorage]
    split
    · rename_i h
      cases l with
      | nil => simp [MAX_RECORDS_PER_STORAGE] at h
      | cons x xs =>
        simp only [List.tail_cons]
        rw [ih xs.length (by simp) xs rfl]
        simp only [List.length_cons]
        have h' : MAX_RECORDS_PER_STORAGE ≤ xs.length + 1 := by simpa using h
        have : xs.length + 1 - (MAX_RECORDS_PER_STORAGE - 1)
            = (xs.length - (MAX_RECORDS_PER_STORAGE - 1)) + 1 := by
          simp only [MAX_RECORDS_PER_STORAGE] at h' ⊢
          omega
        rw [this, List.drop_succ_cons]
    · rename_i h
      have : l.length - (MAX_RECORDS_PER_STORAGE - 1) = 0 := by
        simp only [MAX_RECORDS_PER_STORAGE] at h ⊢
        omega
      rw [this, List.drop_zero]

/-- C10: after every `emit`, the storage holds at most
`MAX_RECORDS_PER_STORAGE` (1000) records; eviction removes records from the
front (index 0) only — the surviving old records are exactly a suffix,
namely `drop (len - 999)` — and the newest record is appended last, so it is
always retained. -/
theorem emit_bound_evicts_oldest_keeps_newest
    (storage : List StoredRecord) (record : LogRecord) :
    (emit storage record).length ≤ MAX_RECORDS_PER_STORAGE ∧
    emit storage record
      = storage.drop (storage.length - (MAX_RECORDS_PER_STORAGE - 1))
          ++ [dictrecord record] ∧
    (emit storage record).getLast? = some (dictrecord record) := by
  refine ⟨?_, ?_, ?_⟩
  · unfold emit
    rw [trimStorage_eq_drop]
    simp only [List.length_append, List.length_drop, List.length_cons,
      List.length_nil, MAX_RECORDS_PER_STORAGE]
    omega
  · unfold emit
    rw [trimStorage_eq_drop]
  · unfold emit
    simp

/-! ## Theorems for claim C9 (step counter) -/

theorem stepIter_current_step (ops : TN → TN) (k : Nat) (e : Engine) :
    (stepIter ops k e).current_step = e.current_step + k := by
  induction k generalizing e with
  | zero => rfl
  | succ n ih =>
    rw [stepIter, ih]
    simp [step]
    omega

/-- C9: for every `k ≥ 0`, `current_step` after `k` calls to `step` equals the
pre-count plus `k`; the counter is monotone in the number of completed steps,
and the increment is the last action of `step` on the state (`__step += 1`
after all operators ran), so it becomes observable exactly when the step
completes.  The operator pipeline is universally quantified: no operator can
influence the counter. -/
theorem current_step_after_k_steps (ops : TN → TN) (k : Nat) (e : Engine) :
    (stepIter ops k e).current_step = e.current_step + k ∧
    e.current_step ≤ (stepIter ops k e).current_step ∧
    (step ops e).current_step = e.current_step + 1 := by
  refine ⟨stepIter_current_step ops k e, ?_, rfl⟩
  rw [stepIter_current_step]
  omega

/-! ## Theorems for claim C1 (link weight round-trip) -/

theorem set_link_weight_w_and_offsets (tn : TN) (s : Nat) (g : GateSlotType)
    (t : Nat) (sl : GateSlotType) (wt : ℚ) :
    (set_link_weight tn s g t sl wt).w
      = updW tn.w (tn.allocated_node_offsets t + sl.index)
          (tn.allocated_node_offsets s + g.index) wt ∧
    (set_link_weight tn s g t sl wt).allocated_node_offsets
      = tn.allocated_node_offsets := by
  unfold set_link_weight
  dsimp only []
  split_ifs <;> exact ⟨rfl, rfl⟩

/-- C1: after `set_link_weight(s, g, t, sl, w)` the stored matrix entry at
`(offset(t) + slot_index(sl), offset(s) + gate_index(g))` equals `w`, and
`get_link_weight(s, g, t, sl)` returns `w`; and the resulting matrix is
entry-for-entry the same whether the engine runs in sparse or dense storage
mode.  (No liveness hypotheses are needed: the round-trip holds for all
states, in particular for live `s`, `t` and valid gates/slots.) -/
theorem set_get_link_weight_roundtrip (tn : TN) (s : Nat) (g : GateSlotType)
    (t : Nat) (sl : GateSlotType) (wt : ℚ) :
    (set_link_weight tn s g t sl wt).w
      (tn.allocated_node_offsets t + sl.index)
      (tn.allocated_node_offsets s + g.index) = wt ∧
    get_link_weight (set_link_weight tn s g t sl wt) s g t sl = wt ∧
    ∀ x y, (set_link_weight { tn with sparse := true } s g t sl wt).w x y
      = (set_link_weight { tn with sparse := false } s g t sl wt).w x y := by
  obtain ⟨hw, hoff⟩ := set_link_weight_w_and_offsets tn s g t sl wt
  refine ⟨?_, ?_, ?_⟩
  · rw [hw]
    simp [updW]
  · unfold get_link_weight
    rw [hw, hoff]
    simp [updW]
  · intro x y
    have h1 := (set_link_weight_w_and_offsets { tn with sparse := true } s g t sl wt).1
    have h2 := (set_link_weight_w_and_offsets { tn with sparse := false } s g t sl wt).1
    rw [h1, h2]

/-! ## Theorems for claim C3 (por/ret-linked flags) -/

/-- C3 counterexample: `tnPipeNet` has two incoming links of weight 1 on the POR
slot (element `3`) of Pipe node 2 — from node 1 (column 1) and node 3
(column 9) — and por-linked flags 1.  Setting the first link's weight to `0`
leaves the other POR link in place (`w[3, 9] = 1`), yet the flag of the
Pipe's elements drops to `0`: the code does the simple "set to 0" instead of
recomputing from the remaining links, refuting the claim that the flag stays
`1`. -/
theorem porlinked_cleared_despite_remaining_link :
    tnPipeNet.w 3 1 = 1 ∧ tnPipeNet.w 3 9 = 1 ∧
    tnPipeNet.allocated_nodes 2 = PIPE ∧ tnPipeNet.n_node_porlinked 2 = 1 ∧
    (set_link_weight tnPipeNet 1 GateSlotType.gen 2 GateSlotType.por 0).w 3 9 = 1 ∧
    (set_link_weight tnPipeNet 1 GateSlotType.gen 2 GateSlotType.por 0).n_node_porlinked 2 = 0 := by
  refine ⟨by decide, by decide, by decide, by decide, ?_, ?_⟩ <;> decide

/-- C3 amended: on `set_link_weight` targeting the POR (resp. RET) slot of a
Pipe node, all seven por-linked (resp. ret-linked) flags of the target are
overwritten with `0` when the new weight is zero and `1` otherwise —
regardless of any other incoming POR/RET link that remains. -/
theorem set_link_weight_porlinked_eq (tn : TN) (s : Nat) (g : GateSlotType)
    (t : Nat) (wt : ℚ) (hp : tn.allocated_nodes t = PIPE) :
    (set_link_weight tn s g t GateSlotType.por wt).n_node_porlinked
      = setRange tn.n_node_porlinked (tn.allocated_node_offsets t) 7
          (if wt = 0 then 0 else 1) := by
  unfold set_link_weight
  simp only [hp, reduceCtorEq, false_and, if_false, if_true, and_true,
    true_and, and_self, ite_self]

theorem set_link_weight_retlinked_eq (tn : TN) (s : Nat) (g : GateSlotType)
    (t : Nat) (wt : ℚ) (hp : tn.allocated_nodes t = PIPE) :
    (set_link_weight tn s g t GateSlotType.ret wt).n_node_retlinked
      = setRange tn.n_node_retlinked (tn.allocated_node_offsets t) 7
          (if wt = 0 then 0 else 1) := by
  unfold set_link_weight
  simp only [hp, reduceCtorEq, false_and, if_false, if_true, and_true,
    true_and, and_self, ite_self]

/-- C3 amended: on `set_link_weight` targeting the POR (resp. RET) slot of a
Pipe node, all seven por-linked (resp. ret-linked) flags of the target are
overwritten with `0` when the new weight is zero and `1` otherwise —
regardless of any other incoming POR/RET link that remains. -/
theorem set_link_weight_flags_follow_last_write (tn : TN) (s : Nat)
    (g : GateSlotType) (t : Nat) (wt : ℚ) (hp : tn.allocated_nodes t = PIPE)
    (k : Nat) (hk : k < 7) :
    (set_link_weight tn s g t GateSlotType.por wt).n_node_porlinked
      (tn.allocated_node_offsets t + k) = (if wt = 0 then 0 else 1) ∧
    (set_link_weight tn s g t GateSlotType.ret wt).n_node_retlinked
      (tn.allocated_node_offsets t + k) = (if wt = 0 then 0 else 1) := by
  rw [set_link_weight_porlinked_eq tn s g t wt hp,
    set_link_weight_retlinked_eq tn s g t wt hp]
  constructor <;>
  · simp only [setRange]
    rw [if_pos ⟨Nat.le_add_right _ _, by omega⟩]

/-- C3 amended witness: at the concrete state `tnPipeNet` (Pipe node 2 at offset
2) with new weight `0`, the amended theorem yields flag `0` at element
`2 + 3`. -/
theorem set_link_weight_flags_follow_last_write_witness :
    tnPipeNet.allocated_nodes 2 = PIPE ∧ (3 : Nat) < 7 ∧
    (set_link_weight tnPipeNet 1 GateSlotType.gen 2 GateSlotType.por 0).n_node_porlinked
      (tnPipeNet.allocated_node_offsets 2 + 3) = 0 := by
  refine ⟨by decide, by decide, ?_⟩
  have h := (set_link_weight_flags_follow_last_write tnPipeNet 1 GateSlotType.gen 2 0
    (by decide) 3 (by decide)).1
  simpa using h

/-! ## Theorems for claim C2 (id allocation wrap-around) -/

/-- C2: the claim fails on the code.  In `tnC2` the upward scan range
`(last_allocated_node, NoN) = (2, 3)` is empty while id `1 ∈ [1, NoN)` is
free, so by the claim `create_node` without a uid must wrap and allocate id
`1`.  But the source's wrap loop is `for i in range(self.last_allocated_node - 1)`,
which starts at index `0` — and index 0 (the reserved "free" sentinel, never
allocated) immediately matches `allocated_nodes[i] == 0`, so the loop breaks
with `id = 0` and the following `if id < 1` raises `MemoryError`
(CapacityExhausted).  The wrap-around scan can therefore never allocate
anything: `create_node` fails although a free id exists. -/
theorem create_node_wrap_scan_cannot_allocate :
    tnC2.last_allocated_node = 2 ∧ tnC2.NoN = 3 ∧
    tnC2.allocated_nodes 1 = 0 ∧ tnC2.allocated_nodes 0 = 0 ∧
    findFreeIdFromCursor tnC2.allocated_nodes tnC2.last_allocated_node tnC2.NoN = none ∧
    (create_node tnC2 NType.Register 1 none none).isNone = true := by
  refine ⟨rfl, rfl, by decide, by decide, by decide, by decide⟩

/-! ## Theorems for claim C4 (delete_node frame effect) -/

/-- C4: the claim fails on the code, and the code contradicts its own intent.
In `tnPipeNet`, Register node 1 owns exactly element 1
(`get_elements_per_type(REGISTER) = 1`), and element 2 is owned by Pipe
node 2.  `delete_node("n1")` bounds its `g_function_selector` loop by the
element count (element 2 keeps its value), but writes `NFPG_PIPE_NON` into
`n_function_selector` at `offset+GEN .. offset+EXP` — seven positions from
offset 1 — thereby zeroing element 2 (and 3..7), which the Pipe node owns:
a per-element slot owned by a different node is changed. -/
theorem delete_node_writes_outside_owned_run :
    tnPipeNet.allocated_nodes 1 = REGISTER ∧
    get_elements_per_type REGISTER = 1 ∧
    tnPipeNet.allocated_node_offsets 1 = 1 ∧
    tnPipeNet.allocated_elements_to_nodes 2 = 2 ∧
    tnPipeNet.n_function_selector 2 = NFPG_PIPE_GEN ∧
    (delete_node tnPipeNet 1).n_function_selector 2 = NFPG_PIPE_NON ∧
    NFPG_PIPE_GEN ≠ NFPG_PIPE_NON ∧
    (delete_node tnPipeNet 1).g_function_selector 2 = tnPipeNet.g_function_selector 2 := by
  refine ⟨by decide, by decide, by decide, by decide, by decide, ?_, by decide, ?_⟩ <;> decide

/-! ## Theorems for claim C5 (create_node with a live uid) -/

/-- C5 counterexample: in `tnC5` node 1 is live (`allocated_nodes[1] =
REGISTER`), yet `create_node(Register, "s1", uid="n1")` does not fail — it
returns uid `"n1"` — and it mutates the arena: node 1's offset entry moves
from `1` to the freshly scanned offset `2` and element 2 is claimed for
node 1 (while old element 1 stays marked).  This refutes both the
`DuplicateUid` failure and the "no mutation" part of the claim. -/
theorem create_node_live_uid_succeeds_and_mutates :
    tnC5.allocated_nodes 1 ≠ 0 ∧
    tnC5.allocated_node_offsets 1 = 1 ∧
    ((create_node tnC5 NType.Register 1 (some 1) none).map
      (fun p => (p.1, p.2.allocated_node_offsets 1, p.2.allocated_elements_to_nodes 2,
        p.2.allocated_elements_to_nodes 1))) = some (1, 2, 1, 1) := by
  refine ⟨by decide, by decide, by decide⟩

/-- C5 amended: `create_node` with an explicit uid performs no liveness
check whatsoever — there is no `DuplicateUid` failure path.  For every state
and live uid `u`, whenever the element scan finds a free run at offset `o`,
the call succeeds, returns the very same uid `u`, and overwrites node `u`'s
arena entries (type and offset) — a mutation, not an all-or-nothing
rejection. -/
theorem create_node_explicit_uid_no_duplicate_check (tn : TN) (ty : NType)
    (ns u : Nat) (_hlive : tn.allocated_nodes u ≠ 0) (o : Nat)
    (hscan : findElementRange tn.allocated_elements_to_nodes tn.NoE
      (get_elements_per_type ty.code) (2 * tn.NoE + 2)
      (tn.last_allocated_offset + 1) false = some o) :
    ∃ tn', create_node tn ty ns (some u) none = some (u, tn') ∧
      tn'.allocated_nodes u = ty.code ∧
      tn'.allocated_node_offsets u = o := by
  unfold create_node
  simp only [Option.pure_def, Option.bind_eq_bind, Option.some_bind, hscan]
  refine ⟨_, rfl, ?_, ?_⟩ <;>
    cases ty <;>
      simp [create_node_pipe_init, set_nodespace_gatetype_activator,
        Function.update_same]

/-- C5 amended witness: at `tnC5` with uid `1` (live) the element scan finds
offset `2` and the amended theorem applies. -/
theorem create_node_explicit_uid_no_duplicate_check_witness :
    tnC5.allocated_nodes 1 ≠ 0 ∧
    (∃ tn', create_node tnC5 NType.Register 1 (some 1) none = some (1, tn') ∧
      tn'.allocated_nodes 1 = NType.Register.code ∧
      tn'.allocated_node_offsets 1 = 2) := by
  refine ⟨by decide, ?_⟩
  exact create_node_explicit_uid_no_duplicate_check tnC5 NType.Register 1 1
    (by decide) 2 (by decide)

/-! ## Theorems for claim C6 (Root nodespace and delete_nodespace) -/

theorem delete_node_clear_ns_activator_projs (tn : TN) (parent id : Nat) :
    (delete_node_clear_ns_activator tn parent id).allocated_nodes = tn.allocated_nodes ∧
    (delete_node_clear_ns_activator tn parent id).allocated_node_parents = tn.allocated_node_parents ∧
    (delete_node_clear_ns_activator tn parent id).allocated_nodespaces = tn.allocated_nodespaces ∧
    (delete_node_clear_ns_activator tn parent id).NoN = tn.NoN ∧
    (delete_node_clear_ns_activator tn parent id).NoNS = tn.NoNS := by
  unfold delete_node_clear_ns_activator
  split_ifs <;> exact ⟨rfl, rfl, rfl, rfl, rfl⟩

theorem delete_node_projs (tn : TN) (id : Nat) :
    (delete_node tn id).allocated_nodes = Function.update tn.allocated_nodes id 0 ∧
    (delete_node tn id).allocated_node_parents = Function.update tn.allocated_node_parents id 0 ∧
    (delete_node tn id).allocated_nodespaces = tn.allocated_nodespaces ∧
    (delete_node tn id).NoN = tn.NoN ∧
    (delete_node tn id).NoNS = tn.NoNS := by
  unfold delete_node
  exact ⟨(delete_node_clear_ns_activator_projs _ _ _).1,
    (delete_node_clear_ns_activator_projs _ _ _).2.1,
    (delete_node_clear_ns_activator_projs _ _ _).2.2.1,
    (delete_node_clear_ns_activator_projs _ _ _).2.2.2.1,
    (delete_node_clear_ns_activator_projs _ _ _).2.2.2.2⟩

theorem foldl_delete_node_not_mem (n : Nat) :
    ∀ (l : List Nat) (tn : TN), n ∉ l →
      (l.foldl (fun s nid => delete_node s nid) tn).allocated_nodes n = tn.allocated_nodes n ∧
      (l.foldl (fun s nid => delete_node s nid) tn).allocated_node_parents n = tn.allocated_node_parents n ∧
      (l.foldl (fun s nid => delete_node s nid) tn).allocated_nodespaces = tn.allocated_nodespaces ∧
      (l.foldl (fun s nid => delete_node s nid) tn).NoN = tn.NoN ∧
      (l.foldl (fun s nid => delete_node s nid) tn).NoNS = tn.NoNS := by
  intro l
  induction l with
  | nil => intro tn _; exact ⟨rfl, rfl, rfl, rfl, rfl⟩
  | cons d l ihl =>
    intro tn hn
    have hnd : n ≠ d := fun h => hn (h ▸ List.mem_cons_self d l)
    have hnl : n ∉ l := fun h => hn (List.mem_cons_of_mem d h)
    obtain ⟨f1, f2, f3, f4, f5⟩ := ihl (delete_node tn d) hnl
    rw [List.foldl_cons]
    obtain ⟨p1, p2, p3, p4, p5⟩ := delete_node_projs tn d
    refine ⟨?_, ?_, ?_, ?_, ?_⟩
    · rw [f1, p1, Function.update_noteq hnd]
    · rw [f2, p2, Function.update_noteq hnd]
    · rw [f3, p3]
    · rw [f4, p4]
    · rw [f5, p5]

theorem foldl_delete_node_mem_zero (n : Nat) :
    ∀ (l : List Nat) (tn : TN), (n ∈ l ∨ tn.allocated_nodes n = 0) →
      (l.foldl (fun s nid => delete_node s nid) tn).allocated_nodes n = 0 := by
  intro l
  induction l with
  | nil =>
    intro tn h
    rcases h with h | h
    · exact absurd h (List.not_mem_nil n)
    · exact h
  | cons d l ihl =>
    intro tn h
    rw [List.foldl_cons]
    apply ihl (delete_node tn d)
    rcases h with h | h
    · rcases List.mem_cons.mp h with h | h
      · right
        rw [(delete_node_projs tn d).1, h, Function.update_same]
      · left; exact h
    · by_cases hnd : n = d
      · right; rw [(delete_node_projs tn d).1, hnd, Function.update_same]
      · right; rw [(delete_node_projs tn d).1, Function.update_noteq hnd, h]

theorem foldl_rec_inv (n : Nat) (rec : TN → Nat → TN)
    (hrec : ∀ (tn : TN) (c : Nat), c ≠ 0 → c ≠ 1 →
      tn.allocated_nodespaces 0 = 0 → tn.allocated_nodespaces 1 = 0 →
      tn.allocated_node_parents n = 1 →
      (rec tn c).allocated_nodespaces 0 = 0 ∧
      (rec tn c).allocated_nodespaces 1 = 0 ∧
      (rec tn c).allocated_node_parents n = 1 ∧
      (rec tn c).allocated_nodes n = tn.allocated_nodes n ∧
      (rec tn c).NoN = tn.NoN) :
    ∀ (l : List Nat) (tn : TN), (∀ d ∈ l, d ≠ 0 ∧ d ≠ 1) →
      tn.allocated_nodespaces 0 = 0 → tn.allocated_nodespaces 1 = 0 →
      tn.allocated_node_parents n = 1 →
      (l.foldl (fun s c => rec s c) tn).allocated_nodespaces 0 = 0 ∧
      (l.foldl (fun s c => rec s c) tn).allocated_nodespaces 1 = 0 ∧
      (l.foldl (fun s c => rec s c) tn).allocated_node_parents n = 1 ∧
      (l.foldl (fun s c => rec s c) tn).allocated_nodes n = tn.allocated_nodes n ∧
      (l.foldl (fun s c => rec s c) tn).NoN = tn.NoN := by
  intro l
  induction l with
  | nil => intro tn _ h0 h1 hp; exact ⟨h0, h1, hp, rfl, rfl⟩
  | cons d l ihl =>
    intro tn hdl h0 h1 hp
    have hd := hdl d (List.mem_cons_self d l)
    obtain ⟨r0, r1, rp, rn, rN⟩ := hrec tn d hd.1 hd.2 h0 h1 hp
    have hrest : ∀ x ∈ l, x ≠ 0 ∧ x ≠ 1 := fun x hx => hdl x (List.mem_cons_of_mem d hx)
    obtain ⟨f0, f1, fp, fn, fN⟩ := ihl (rec tn d) hrest r0 r1 rp
    rw [List.foldl_cons]
    exact ⟨f0, f1, fp, fn.trans rn, fN.trans rN⟩

theorem dns_clear_projs (tn : TN) (id : Nat) :
    (dns_clear tn id).allocated_nodes = tn.allocated_nodes ∧
    (dns_clear tn id).allocated_node_parents = tn.allocated_node_parents ∧
    (dns_clear tn id).allocated_nodespaces = Function.update tn.allocated_nodespaces id 0 ∧
    (dns_clear tn id).NoN = tn.NoN := by
  unfold dns_clear
  exact ⟨rfl, rfl, rfl, rfl⟩

theorem delete_nodespace_succ (fuel : Nat) (tn : TN) (id : Nat) :
    delete_nodespace (fuel + 1) tn id =
      dns_clear
        ((dns_nodes ((dns_children tn id).foldl (fun s c => delete_nodespace fuel s c) tn) id).foldl
          (fun s nid => delete_node s nid)
          ((dns_children tn id).foldl (fun s c => delete_nodespace fuel s c) tn)) id := rfl

theorem mem_dns_children_props (tn : TN) (id d : Nat) (hd : d ∈ dns_children tn id) :
    tn.allocated_nodespaces d = id := by
  have := (List.mem_filter.mp hd).2
  simpa using this

/-- The invariant carried through the recursion of `delete_nodespace`: when
the deleted nodespace is neither `0` nor `1`, the parent entries of `0` and
`1`, the parent and type entries of any node `n` sitting in nodespace `1`,
and the capacity survive. -/
theorem delete_nodespace_inv (n : Nat) :
    ∀ (fuel : Nat) (tn : TN) (c : Nat), c ≠ 0 → c ≠ 1 →
      tn.allocated_nodespaces 0 = 0 → tn.allocated_nodespaces 1 = 0 →
      tn.allocated_node_parents n = 1 →
      (delete_nodespace fuel tn c).allocated_nodespaces 0 = 0 ∧
      (delete_nodespace fuel tn c).allocated_nodespaces 1 = 0 ∧
      (delete_nodespace fuel tn c).allocated_node_parents n = 1 ∧
      (delete_nodespace fuel tn c).allocated_nodes n = tn.allocated_nodes n ∧
      (delete_nodespace fuel tn c).NoN = tn.NoN := by
  intro fuel
  induction fuel with
  | zero => intro tn c _ _ h0 h1 hp; exact ⟨h0, h1, hp, rfl, rfl⟩
  | succ f ihf =>
    intro tn c hc0 hc1 h0 h1 hp
    rw [delete_nodespace_succ]
    have hch : ∀ d ∈ dns_children tn c, d ≠ 0 ∧ d ≠ 1 := by
      intro d hd
      have hdc := mem_dns_children_props tn c d hd
      constructor
      · rintro rfl; exact hc0 (by rw [← hdc, h0])
      · rintro rfl; exact hc0 (by rw [← hdc, h1])
    obtain ⟨f0, f1, fp, fn, fN⟩ :=
      foldl_rec_inv n (fun s c => delete_nodespace f s c) (fun s d => ihf s d)
        (dns_children tn c) tn hch h0 h1 hp
    have hnm : n ∉ dns_nodes ((dns_children tn c).foldl (fun s c => delete_nodespace f s c) tn) c := by
      intro hmem
      have hpar := (List.mem_filter.mp hmem).2
      have hpar' : ((dns_children tn c).foldl (fun s c => delete_nodespace f s c) tn).allocated_node_parents n = c := by
        simpa using hpar
      exact hc1 (by rw [← hpar', fp])
    obtain ⟨g1, g2, g3, g4, g5⟩ := foldl_delete_node_not_mem n _ _ hnm
    obtain ⟨q1, q2, q3, q4⟩ := dns_clear_projs _ c
    refine ⟨?_, ?_, ?_, ?_, ?_⟩
    · rw [q3, Function.update_noteq (Ne.symm hc0), g3, f0]
    · rw [q3, Function.update_noteq (Ne.symm hc1), g3, f1]
    · rw [q2]; rw [g2, fp]
    · rw [q1]; rw [g1, fn]
    · rw [q4]; rw [g4, fN]

/-- C6 counterexample: in `tnC6` the Root nodespace `"s1"` directly contains
the live Register node 1, and has the child nodespace 2.
`delete_nodespace("s1")` is NOT refused: it deletes the child nodespace and
the Root's node.  This refutes "deleting the Root is forbidden: it fails and
leaves the nodespace arena (and the Root's nodes) unchanged". -/
theorem delete_root_nodespace_not_refused :
    tnC6.allocated_nodes 1 = REGISTER ∧ REGISTER ≠ 0 ∧
    tnC6.allocated_node_parents 1 = 1 ∧
    tnC6.allocated_nodespaces 2 = 1 ∧
    (delete_nodespace 3 tnC6 1).allocated_nodes 1 = 0 ∧
    (delete_nodespace 3 tnC6 1).allocated_nodespaces 2 = 0 := by
  refine ⟨by decide, by decide, by decide, by decide, ?_, ?_⟩ <;> decide

/-- C6 amended: `delete_nodespace` has no Root protection at all.  On any
state whose Root is canonical (`allocated_nodespaces[0] = allocated_nodespaces[1] = 0`,
as `__init__` establishes), `delete_nodespace("s1")` runs the same recursive
deletion as for any other nodespace — child nodespaces first, then contained
nodes — and in particular deletes every node whose parent is the Root.  Only
the uid list keeps reporting the Root: `get_nodespace_uids` appends id `1`
unconditionally, which is also the only sense in which "NodespaceId 1 is
always allocated" holds (the Root's own arena entry is `0`, its parent,
indistinguishable from free). -/
theorem delete_nodespace_root_not_protected (tn : TN) (n fuel : Nat)
    (h0 : tn.allocated_nodespaces 0 = 0) (h1 : tn.allocated_nodespaces 1 = 0)
    (hp : tn.allocated_node_parents n = 1) (hN : n < tn.NoN) :
    (delete_nodespace (fuel + 1) tn 1).allocated_nodes n = 0 ∧
    1 ∈ get_nodespace_uids (delete_nodespace (fuel + 1) tn 1) := by
  constructor
  · rw [delete_nodespace_succ]
    have hch : ∀ d ∈ dns_children tn 1, d ≠ 0 ∧ d ≠ 1 := by
      intro d hd
      have hdc := mem_dns_children_props tn 1 d hd
      constructor
      · rintro rfl; rw [h0] at hdc; exact one_ne_zero hdc.symm
      · rintro rfl; rw [h1] at hdc; exact one_ne_zero hdc.symm
    obtain ⟨f0, f1, fp, fn, fN⟩ :=
      foldl_rec_inv n (fun s c => delete_nodespace fuel s c)
        (fun s d => delete_nodespace_inv n fuel s d)
        (dns_children tn 1) tn hch h0 h1 hp
    have hmem : n ∈ dns_nodes ((dns_children tn 1).foldl (fun s c => delete_nodespace fuel s c) tn) 1 := by
      apply List.mem_filter.mpr
      constructor
      · exact List.mem_range.mpr (by rw [fN]; exact hN)
      · simpa using fp
    rw [(dns_clear_projs _ 1).1]
    exact foldl_delete_node_mem_zero n _ _ (Or.inl hmem)
  · unfold get_nodespace_uids
    simp

/-- C6 amended witness: at `tnC6` (node 1 lives in the Root) the amended
theorem applies with fuel `2` and yields the deletion of node 1. -/
theorem delete_nodespace_root_not_protected_witness :
    tnC6.allocated_nodespaces 0 = 0 ∧ tnC6.allocated_nodespaces 1 = 0 ∧
    tnC6.allocated_node_parents 1 = 1 ∧ 1 < tnC6.NoN ∧
    (delete_nodespace 3 tnC6 1).allocated_nodes 1 = 0 := by
  refine ⟨by decide, by decide, by decide, by decide, ?_⟩
  exact (delete_nodespace_root_not_protected tnC6 1 2
    (by decide) (by decide) (by decide) (by decide)).1

/-! ## Theorems for claim C7 (load error handling) -/

/-- C7 counterexample: when the metadata file does not exist, `load` does
NOT return a failure flag — `os.path.isfile` is false, the whole read block
(including its `return False` arms) is skipped, and `load` runs to
`return True` on the freshly initialised state.  This refutes the claim that
a missing metadata file makes `load` return `False`. -/
theorem load_missing_metadata_returns_true :
    load (fun _ : Unit => true) (fun _ t => t) FileOnDisk.absent FileOnDisk.absent
      (freshTN 4 10 3 true) = Except.ok (true, freshTN 4 10 3 true) := rfl

/-- C7 amended: a metadata file that does not exist is silently skipped —
`load` proceeds on the freshly-initialised state and returns `True`; only a
metadata (or archive) file that exists but cannot be read or parsed makes
`load` return `False`, leaving the arrays untouched at that point.  A member
missing from the archive produces a warning and a per-field fallback to the
default array (shown here for `allocated_nodes`, `g_theta` and the `w`
triple; with the `w` triple missing, `a` also keeps its default). -/
theorem load_metadata_and_member_handling {μ : Type} (isE : μ → Bool)
    (merge : μ → TN → TN) (df : DataFile) (tn : TN)
    (hgt : df.g_theta = none) (han : df.allocated_nodes = none)
    (hw : df.w_csr = none) :
    load isE merge FileOnDisk.absent FileOnDisk.absent tn = Except.ok (true, tn) ∧
    load isE merge FileOnDisk.ioerror (FileOnDisk.ok df) tn = Except.ok (false, tn) ∧
    load isE merge FileOnDisk.valueerror (FileOnDisk.ok df) tn = Except.ok (false, tn) ∧
    ∃ t, load isE merge FileOnDisk.absent (FileOnDisk.ok df) tn = Except.ok (true, t) ∧
      t.g_theta = tn.g_theta ∧ t.allocated_nodes = tn.allocated_nodes ∧
      t.w = tn.w ∧ t.a = tn.a := by
  refine ⟨rfl, rfl, rfl, ?_⟩
  have hred : load isE merge FileOnDisk.absent (FileOnDisk.ok df) tn
      = (apply_datafile df (initialize_nodenet isE merge none tn)).map
          (fun t => (true, t)) := rfl
  rw [hred]
  unfold apply_datafile
  rw [hw]
  refine ⟨_, rfl, ?_, ?_, ?_, ?_⟩ <;>
    simp [apply_scalar_members, initialize_nodenet, hgt, han]

/-- C7 amended witness: the entirely empty archive file with absent/corrupt
metadata files, on a fresh nodenet. -/
theorem load_metadata_and_member_handling_witness :
    emptyDataFile.g_theta = none ∧
    load (fun _ : Unit => true) (fun _ t => t) FileOnDisk.ioerror
      (FileOnDisk.ok emptyDataFile) (freshTN 4 10 3 true)
      = Except.ok (false, freshTN 4 10 3 true) := by
  refine ⟨rfl, ?_⟩
  exact (load_metadata_and_member_handling (fun _ : Unit => true) (fun _ t => t)
    emptyDataFile (freshTN 4 10 3 true) rfl rfl rfl).2.1

/-! ## Theorems for claim C8 (the shifted activation view) -/

/-- C8 counterexample: with `NoE = 20` and buffer `a[k] = k`, the view built
by `__init__` has row `0 = [a[0], …, a[6]]`, but the view built by
`rebuild_shifted` has FOURTEEN columns and its row 0 starts with
`a_rolled[0] = a[13]`, not `a[0]`: after a rebuild, row `i` is not the
7-element window `[a[i], …, a[i+6]]` the claim describes. -/
theorem rebuild_shifted_row_not_seven_window :
    (a_shifted_init aC8 20).cols = 7 ∧
    (a_shifted_init aC8 20).entry 0 0 = some (aC8 0) ∧
    (rebuild_shifted aC8 20).cols = 14 ∧
    (rebuild_shifted aC8 20).entry 0 0 = some (aC8 13) ∧
    aC8 13 ≠ aC8 0 := by
  refine ⟨rfl, by norm_num [a_shifted_init, aC8], rfl, ?_, by norm_num [aC8]⟩
  norm_num [rebuild_shifted, aC8]

/-- C8 amended: the 7-column window description holds for the view built by
`__init__`: row `i` column `j` reads `a[i+j]` (for in-buffer reads).
`rebuild_shifted`, however, builds a 14-column view over `np.roll(a, 7)`:
row `i` column `j` reads `a[(i + j - 7) mod NoE]`, so the window
`[a[i], …, a[i+6]]` sits in columns `7..13` of row `i`, not in a 7-column
row. -/
theorem a_shifted_views_characterised (a : Nat → ℚ) (NoE : Nat) :
    (a_shifted_init a NoE).cols = 7 ∧
    (∀ i j, j < 7 → i + j < NoE →
      (a_shifted_init a NoE).entry i j = some (a (i + j))) ∧
    (rebuild_shifted a NoE).cols = 14 ∧
    (∀ i j, j < 14 → i + j < NoE →
      (rebuild_shifted a NoE).entry i j = some (a ((i + j + NoE - 7) % NoE))) ∧
    (∀ i k, k < 7 → i + 7 + k < NoE →
      (rebuild_shifted a NoE).entry i (7 + k) = some (a (i + k))) := by
  refine ⟨rfl, ?_, rfl, ?_, ?_⟩
  · intro i j hj hij
    simp [a_shifted_init, hj, hij]
  · intro i j hj hij
    simp [rebuild_shifted, hj, hij]
  · intro i k hk h
    have h14 : 7 + k < 14 := by omega
    have hlt : i + (7 + k) < NoE := by omega
    simp only [rebuild_shifted, h14, hlt, and_self, if_true]
    congr 1
    have h1 : i + (7 + k) + NoE - 7 = i + k + NoE := by omega
    rw [h1, Nat.add_mod_right, Nat.mod_eq_of_lt (by omega)]

/-- C8 amended witness: at `a[k] = k`, `NoE = 20`, row 1 column `7 + 2` of
the rebuilt view reads `a[3]`. -/
theorem a_shifted_views_characterised_witness :
    (2 : Nat) < 7 ∧ 1 + 7 + 2 < 20 ∧
    (rebuild_shifted aC8 20).entry 1 (7 + 2) = some (aC8 (1 + 2)) := by
  refine ⟨by decide, by decide, ?_⟩
  exact (a_shifted_views_characterised aC8 20).2.2.2.2 1 2 (by decide) (by decide)

end Micropsi
